import Mathlib

/-!
# Verification of the ESP8266 sensor-telemetry firmware

Shallow embedding of `src/firmware/src/main.cpp`: a single cooperative
polling loop with three millisecond timers (Wi-Fi link check, telemetry
send, LED blink), a DHT22 sensor read, and one HTTPS POST per send tick.

Modelling conventions:
* `unsigned long` (32-bit on ESP8266) timestamps are `Nat` reduced mod
  `2^32`; the wraparound-safe C subtraction `a - b` is `usub32`.
* `float` sensor readings carry no arithmetic in this program, so a
  reading is an `Option ℚ` where `none` stands for NaN (`isnan` true).
* Hardware and library collaborators (`WiFi`, `WiFiClientSecure`,
  `HTTPClient`, `DHT`, `digitalWrite`, `Serial`) are oracles: their
  per-pass answers are fields of `Env`, their observable commands are
  recorded in the event structures.
* `HIGH`/`LOW` pin levels are `true`/`false`.
-/

namespace Firmware

/-- `2^32`, the modulus of the ESP8266 `unsigned long`. -/
def two32 : Nat := 4294967296

/-- `const unsigned long wifiCheckInterval = 60000;` -/
def wifiCheckInterval : Nat := 60000

/-- `const unsigned long messageInterval = 240000;` -/
def messageInterval : Nat := 240000

/-- The literal `1000` passed to `blinkLED` in `loop`. -/
def blinkInterval : Nat := 1000

/-- 32-bit wraparound-safe unsigned subtraction, the value of the C
expression `currentMillis - last` at type `unsigned long`. -/
def usub32 (a b : Nat) : Nat :=
  (a % two32 + (two32 - b % two32)) % two32

/-- The `JsonDocument` built in `loop`: a JSON object with keys
`"temperature"` and `"humidity"`, each holding one numeric value. -/
structure Payload where
  temperatureField : ℚ
  humidityField : ℚ
deriving DecidableEq

/-- One `Serial.println` diagnostic emitted by the firmware. -/
inductive LogEvent where
  | sensorReadFailed : LogEvent
  | postSendError (code : Int) : LogEvent
  | postSuccess (code : Int) : LogEvent
  | httpError (code : Int) : LogEvent
  | responseBody (body : String) : LogEvent
deriving DecidableEq

/-- The firmware's global mutable state: the three timer timestamps, the
blink state variable `ledState`, the link flag `deviceWifiConnected`, and
the actual output level of `LED_PIN` (written by `digitalWrite`). -/
structure St where
  lastWifiCheckTime : Nat
  lastMessageTime : Nat
  lastBlinkTime : Nat
  ledState : Bool
  deviceWifiConnected : Bool
  ledPin : Bool
deriving DecidableEq

/-- The oracle answers the collaborators give during one `loop` pass:
the monotonic clock, the radio association status, the two DHT reads
(`none` = NaN), the secure-client session state, the transport-connect
outcome, the `http.POST` return code and the response body. -/
structure Env where
  millis : Nat
  wifiAssociated : Bool
  humidity : Option ℚ
  temperature : Option ℚ
  clientConnected : Bool
  connectOk : Bool
  postCode : Int
  respBody : String
deriving DecidableEq

/-- `connectToWifi`: if the radio is not associated, call `WiFi.begin`
(the returned `Bool`) and clear `deviceWifiConnected`. -/
def connectToWifi (s : St) (e : Env) : St × Bool :=
  if e.wifiAssociated = false then
    ({ s with deviceWifiConnected := false }, true)
  else
    (s, false)

/-- `checkWifiConnection`: on "not associated" delegate to
`connectToWifi`; on "associated" set the flag and drive `LED_PIN` low.
The returned `Bool` records whether `WiFi.begin` was called. -/
def checkWifiConnection (s : St) (e : Env) : St × Bool :=
  if e.wifiAssociated = false then
    connectToWifi s e
  else
    ({ s with deviceWifiConnected := true, ledPin := false }, false)

/-- Observable effects of one `sendSensorData` call: whether
`client.setFingerprint` ran, whether `client.connect` was attempted, the
`http.POST` invocations issued (with their payloads), whether
`http.getString` read the response body, and the diagnostics printed. -/
structure SendEv where
  fingerprintSet : Bool
  connectTried : Bool
  posts : List Payload
  bodyRead : Bool
  log : List LogEvent
deriving DecidableEq

/-- The event record of a `sendSensorData` call that did nothing. -/
def noSendEv : SendEv :=
  { fingerprintSet := false, connectTried := false, posts := [],
    bodyRead := false, log := [] }

/-- `sendSensorData`: early-return when the link flag is down; otherwise
re-establish the secure session only if `client.connected()` is false
(configuring the fingerprint first), aborting with `LED_PIN` high on
connect failure; otherwise issue exactly one `http.POST` and handle the
return code: positive drives the pin low, reads the body and logs
success (2xx) or an HTTP error; non-positive drives the pin high and
logs the send error. -/
def sendSensorData (s : St) (e : Env) (payload : Payload) : St × SendEv :=
  if s.deviceWifiConnected = false then
    (s, noSendEv)
  else
    let fingerprintSet := !e.clientConnected
    let connectTried := !e.clientConnected
    if e.clientConnected = false ∧ e.connectOk = false then
      ({ s with ledPin := true },
       { fingerprintSet, connectTried, posts := [], bodyRead := false,
         log := [] })
    else
      let code := e.postCode
      if 0 < code then
        ({ s with ledPin := false },
         { fingerprintSet, connectTried, posts := [payload],
           bodyRead := true,
           log :=
             if 200 ≤ code ∧ code < 300 then
               [LogEvent.postSuccess code, LogEvent.responseBody e.respBody]
             else
               [LogEvent.httpError code, LogEvent.responseBody e.respBody] })
      else
        ({ s with ledPin := true },
         { fingerprintSet, connectTried, posts := [payload],
           bodyRead := false, log := [LogEvent.postSendError code] })

/-- The payload built in `loop`:
`doc["temperature"] = humidity; doc["humidity"] = temperature;`
(arguments in the order the source reads them). -/
def mkPayload (humidity temperature : ℚ) : Payload :=
  { temperatureField := humidity, humidityField := temperature }

/-- `blinkLED(pin, interval, currentMillis)`: if the blink interval has
elapsed since `lastBlinkTime`, record the time, flip `ledState` and
write it to the pin. The returned `Bool` records whether it toggled. -/
def blinkLED (s : St) (interval : Nat) (currentMillis : Nat) : St × Bool :=
  if usub32 currentMillis s.lastBlinkTime ≥ interval then
    let led := !s.ledState
    ({ s with lastBlinkTime := currentMillis, ledState := led,
              ledPin := led }, true)
  else
    (s, false)

/-- The first block of `loop`: run `checkWifiConnection` and stamp
`lastWifiCheckTime` when the link-check interval has elapsed. Returns
the state, whether the check ran, and whether `WiFi.begin` was called. -/
def wifiPhase (s : St) (e : Env) : St × Bool × Bool :=
  let t := e.millis % two32
  if usub32 t s.lastWifiCheckTime ≥ wifiCheckInterval then
    let r := checkWifiConnection s e
    ({ r.1 with lastWifiCheckTime := t }, true, r.2)
  else
    (s, false, false)

/-- Observable events of one full `loop` pass. -/
structure Ev where
  wifiCheckRan : Bool
  wifiBegan : Bool
  sendBranch : Bool
  sensorFailed : Bool
  attempts : List Payload
  fingerprintSet : Bool
  connectTried : Bool
  posts : List Payload
  bodyRead : Bool
  blinkToggled : Bool
  log : List LogEvent
deriving DecidableEq

/-- One pass of `loop`: read `millis()` once; run the link-check timer;
if the link flag is up and the send interval has elapsed, read the
sensor — on NaN log, stamp `lastMessageTime` and `return` (skipping the
blink check, as the source's early `return` does); otherwise build the
payload, call `sendSensorData` and stamp `lastMessageTime`; finally,
when the link flag is down, call `blinkLED`. -/
def loopStep (s : St) (e : Env) : St × Ev :=
  let t := e.millis % two32
  let w := wifiPhase s e
  let s1 := w.1
  if s1.deviceWifiConnected = true ∧ usub32 t s1.lastMessageTime ≥ messageInterval then
    match e.humidity, e.temperature with
    | some h, some tp =>
      let payload := mkPayload h tp
      let r := sendSensorData s1 e payload
      let s3 := { r.1 with lastMessageTime := t }
      let b := if s3.deviceWifiConnected = false then
                 blinkLED s3 blinkInterval t
               else (s3, false)
      (b.1,
       { wifiCheckRan := w.2.1, wifiBegan := w.2.2, sendBranch := true,
         sensorFailed := false, attempts := [payload],
         fingerprintSet := r.2.fingerprintSet,
         connectTried := r.2.connectTried, posts := r.2.posts,
         bodyRead := r.2.bodyRead, blinkToggled := b.2, log := r.2.log })
    | _, _ =>
      ({ s1 with lastMessageTime := t },
       { wifiCheckRan := w.2.1, wifiBegan := w.2.2, sendBranch := true,
         sensorFailed := true, attempts := [], fingerprintSet := false,
         connectTried := false, posts := [], bodyRead := false,
         blinkToggled := false, log := [LogEvent.sensorReadFailed] })
  else
    let b := if s1.deviceWifiConnected = false then
               blinkLED s1 blinkInterval t
             else (s1, false)
    (b.1,
     { wifiCheckRan := w.2.1, wifiBegan := w.2.2, sendBranch := false,
       sensorFailed := false, attempts := [], fingerprintSet := false,
       connectTried := false, posts := [], bodyRead := false,
       blinkToggled := b.2, log := [] })

/-- A sample HTTP response body used in concrete evaluations. -/
def okBody : String := "ok"

/-- The empty HTTP response body. -/
def emptyBody : String := ""


lemma wifiPhase_eq (s : St) (e : Env) :
    wifiPhase s e =
      (if wifiCheckInterval ≤ usub32 (e.millis % two32) s.lastWifiCheckTime then
        ({ s with lastWifiCheckTime := e.millis % two32,
                  deviceWifiConnected := e.wifiAssociated,
                  ledPin := if e.wifiAssociated then false else s.ledPin },
         true, !e.wifiAssociated)
      else (s, false, false)) := by
  unfold wifiPhase checkWifiConnection connectToWifi
  cases h : e.wifiAssociated <;> simp [h, ge_iff_le]

lemma sendSensorData_fst (s : St) (e : Env) (p : Payload) :
    (sendSensorData s e p).1 =
      { s with ledPin :=
          if s.deviceWifiConnected = false then s.ledPin
          else if e.clientConnected = false ∧ e.connectOk = false then true
          else if 0 < e.postCode then false else true } := by
  simp only [sendSensorData]
  split_ifs <;> rfl

lemma sendSensorData_snd (s : St) (e : Env) (p : Payload) :
    (sendSensorData s e p).2 =
      (if s.deviceWifiConnected = false then noSendEv
       else if e.clientConnected = false ∧ e.connectOk = false then
         { fingerprintSet := true, connectTried := true, posts := [],
           bodyRead := false, log := [] }
       else if 0 < e.postCode then
         { fingerprintSet := !e.clientConnected,
           connectTried := !e.clientConnected, posts := [p],
           bodyRead := true,
           log :=
             if 200 ≤ e.postCode ∧ e.postCode < 300 then
               [LogEvent.postSuccess e.postCode, LogEvent.responseBody e.respBody]
             else
               [LogEvent.httpError e.postCode, LogEvent.responseBody e.respBody] }
       else
         { fingerprintSet := !e.clientConnected,
           connectTried := !e.clientConnected, posts := [p],
           bodyRead := false, log := [LogEvent.postSendError e.postCode] }) := by
  simp only [sendSensorData]
  split_ifs with h1 h2 <;> try rfl
  all_goals simp_all


lemma blinkLED_eq (s : St) (i t : Nat) :
    blinkLED s i t =
      (if i ≤ usub32 t s.lastBlinkTime then
        ({ s with lastBlinkTime := t, ledState := !s.ledState,
                  ledPin := !s.ledState }, true)
      else (s, false)) := by
  unfold blinkLED
  split <;> rfl

lemma wifiPhase_keeps (s : St) (e : Env) :
    (wifiPhase s e).1.lastMessageTime = s.lastMessageTime ∧
    (wifiPhase s e).1.lastBlinkTime = s.lastBlinkTime ∧
    (wifiPhase s e).1.ledState = s.ledState := by
  rw [wifiPhase_eq]
  split <;> simp

lemma loop_wifiCheckRan (s : St) (e : Env) :
    (loopStep s e).2.wifiCheckRan = (wifiPhase s e).2.1 := by
  simp only [loopStep]
  split
  · split <;> rfl
  · rfl

lemma loop_wifiCheckRan_iff (s : St) (e : Env) :
    (loopStep s e).2.wifiCheckRan = true ↔
      wifiCheckInterval ≤ usub32 (e.millis % two32) s.lastWifiCheckTime := by
  rw [loop_wifiCheckRan, wifiPhase_eq]
  split <;> simp_all

lemma loop_sendBranch_iff (s : St) (e : Env) :
    (loopStep s e).2.sendBranch = true ↔
      ((wifiPhase s e).1.deviceWifiConnected = true ∧
       messageInterval ≤ usub32 (e.millis % two32) (wifiPhase s e).1.lastMessageTime) := by
  simp only [loopStep]
  split
  · rename_i h
    split <;> simp [ge_iff_le] at h ⊢ <;> exact h
  · rename_i h
    simp [ge_iff_le] at h ⊢
    exact h


lemma loop_blinkToggled_iff (s : St) (e : Env) :
    (loopStep s e).2.blinkToggled = true ↔
      ((wifiPhase s e).1.deviceWifiConnected = false ∧
       blinkInterval ≤ usub32 (e.millis % two32) s.lastBlinkTime) := by
  obtain ⟨hm, hb, hl⟩ := wifiPhase_keeps s e
  simp only [loopStep]
  split
  · rename_i h
    split
    · rename_i hh ht
      simp only []
      rw [sendSensorData_fst]
      simp [h.1, blinkLED_eq]
    · simp [h.1]
  · rename_i h
    split
    · rename_i hc
      rw [blinkLED_eq]
      split <;> simp_all
    · rename_i hc
      simp_all


lemma loop_lastWifiCheckTime (s : St) (e : Env) :
    (loopStep s e).1.lastWifiCheckTime =
      (if (loopStep s e).2.wifiCheckRan = true then e.millis % two32
       else s.lastWifiCheckTime) := by
  rw [loop_wifiCheckRan]
  simp only [loopStep]
  split
  · split
    · simp only []
      rw [sendSensorData_fst]
      split <;> simp [wifiPhase_eq] <;> split <;> simp [blinkLED_eq] <;> split <;> simp
    · rw [wifiPhase_eq]
      split <;> simp
  · split
    · rw [blinkLED_eq]
      split <;> rw [wifiPhase_eq] <;> split <;> simp
    · rw [wifiPhase_eq]
      split <;> simp

lemma loop_lastMessageTime (s : St) (e : Env) :
    (loopStep s e).1.lastMessageTime =
      (if (loopStep s e).2.sendBranch = true then e.millis % two32
       else s.lastMessageTime) := by
  obtain ⟨hm, hb, hl⟩ := wifiPhase_keeps s e
  simp only [loopStep]
  split
  · rename_i h
    split
    · simp only []
      rw [sendSensorData_fst]
      simp [h.1, blinkLED_eq]
    · simp
  · rename_i h
    split
    · rw [blinkLED_eq]
      split <;> simp_all
    · simp_all

lemma loop_lastBlinkTime (s : St) (e : Env) :
    (loopStep s e).1.lastBlinkTime =
      (if (loopStep s e).2.blinkToggled = true then e.millis % two32
       else s.lastBlinkTime) := by
  obtain ⟨hm, hb, hl⟩ := wifiPhase_keeps s e
  simp only [loopStep]
  split
  · rename_i h
    split
    · simp only [sendSensorData_fst]
      simp [h.1, blinkLED_eq, hb]
    · simp_all
  · rename_i h
    split
    · rw [blinkLED_eq]
      split <;> simp_all
    · simp_all


lemma loop_ledState (s : St) (e : Env) :
    (loopStep s e).1.ledState =
      (if (loopStep s e).2.blinkToggled = true then !s.ledState
       else s.ledState) := by
  obtain ⟨hm, hb, hl⟩ := wifiPhase_keeps s e
  simp only [loopStep]
  split
  · rename_i h
    split
    · simp only [sendSensorData_fst]
      simp [h.1, blinkLED_eq, hl]
    · simp_all
  · rename_i h
    split
    · rw [blinkLED_eq]
      split <;> simp_all
    · simp_all

/-- C1: every payload that reaches a send attempt assigns the humidity
reading to the JSON `temperature` key and the temperature reading to the
JSON `humidity` key — the field swap of the source. -/
theorem payload_swaps_sensor_fields (s : St) (e : Env) (p : Payload)
    (hp : p ∈ (loopStep s e).2.attempts) :
    e.humidity = some p.temperatureField ∧
    e.temperature = some p.humidityField := by
  simp only [loopStep] at hp
  split at hp
  · split at hp
    · rename_i h tp hh ht
      simp at hp
      subst hp
      simp [mkPayload, hh, ht]
    · simp at hp
  · simp at hp

/-- Witness for C1 at a concrete pass (humidity 55, temperature 21). -/
theorem payload_swap_witness :
    (⟨55, 21⟩ : Payload) ∈
      (loopStep ⟨0, 0, 0, true, true, false⟩
        ⟨240000, true, some 55, some 21, true, true, 200, okBody⟩).2.attempts ∧
    (⟨240000, true, some 55, some 21, true, true, 200, okBody⟩ : Env).humidity =
      some ((⟨55, 21⟩ : Payload).temperatureField) ∧
    (⟨240000, true, some 55, some 21, true, true, 200, okBody⟩ : Env).temperature =
      some ((⟨55, 21⟩ : Payload).humidityField) :=
  ⟨by decide,
   (payload_swaps_sensor_fields ⟨0, 0, 0, true, true, false⟩
     ⟨240000, true, some 55, some 21, true, true, 200, okBody⟩
     ⟨55, 21⟩ (by decide)).1,
   (payload_swaps_sensor_fields ⟨0, 0, 0, true, true, false⟩
     ⟨240000, true, some 55, some 21, true, true, 200, okBody⟩
     ⟨55, 21⟩ (by decide)).2⟩


/-- C2 counterexample: in the concrete pass below the send interval has
elapsed (`t - lastMessageTime >= messageInterval` in wraparound
arithmetic) yet the send action is not dispatched and `lastMessageTime`
is not updated, because the link flag is down — refuting the claimed
"dispatched iff the interval has elapsed" for the send timer. -/
theorem timer_dispatch_counterexample :
    messageInterval ≤
      usub32 (240000 % two32)
        (⟨0, 0, 0, true, false, false⟩ : St).lastMessageTime ∧
    (loopStep ⟨0, 0, 0, true, false, false⟩
      ⟨240000, false, some 1, some 1, false, false, 0, emptyBody⟩).2.sendBranch = false ∧
    (loopStep ⟨0, 0, 0, true, false, false⟩
      ⟨240000, false, some 1, some 1, false, false, 0, emptyBody⟩).1.lastMessageTime = 0 := by
  decide

/-- C2 (amended): the link-check action dispatches iff its interval has
elapsed; the send action dispatches iff its interval has elapsed AND the
link flag (as updated by this pass's link check) is up; the blink action
dispatches iff its interval has elapsed AND the link flag is down; and
each timer's last-fired timestamp is set to the pass time exactly when
its action dispatches, regardless of the action's internal success or
failure. -/
theorem timer_dispatch_characterization (s : St) (e : Env) :
    ((loopStep s e).2.wifiCheckRan = true ↔
       wifiCheckInterval ≤ usub32 (e.millis % two32) s.lastWifiCheckTime) ∧
    ((loopStep s e).2.sendBranch = true ↔
       ((wifiPhase s e).1.deviceWifiConnected = true ∧
        messageInterval ≤ usub32 (e.millis % two32) (wifiPhase s e).1.lastMessageTime)) ∧
    ((loopStep s e).2.blinkToggled = true ↔
       ((wifiPhase s e).1.deviceWifiConnected = false ∧
        blinkInterval ≤ usub32 (e.millis % two32) s.lastBlinkTime)) ∧
    (loopStep s e).1.lastWifiCheckTime =
      (if (loopStep s e).2.wifiCheckRan = true then e.millis % two32
       else s.lastWifiCheckTime) ∧
    (loopStep s e).1.lastMessageTime =
      (if (loopStep s e).2.sendBranch = true then e.millis % two32
       else s.lastMessageTime) ∧
    (loopStep s e).1.lastBlinkTime =
      (if (loopStep s e).2.blinkToggled = true then e.millis % two32
       else s.lastBlinkTime) :=
  ⟨loop_wifiCheckRan_iff s e, loop_sendBranch_iff s e, loop_blinkToggled_iff s e,
   loop_lastWifiCheckTime s e, loop_lastMessageTime s e, loop_lastBlinkTime s e⟩

/-- C3 counterexample: a pass in which the send interval has elapsed and
the tick is consumed (the send branch fires and `lastMessageTime` is
stamped) but zero send attempts occur, because the sensor read returned
NaN — refuting "exactly one send attempt per elapsed send-interval". -/
theorem send_per_tick_counterexample :
    (loopStep ⟨0, 0, 0, true, true, false⟩
      ⟨240000, true, none, some 1, true, true, 200, emptyBody⟩).2.sendBranch = true ∧
    (loopStep ⟨0, 0, 0, true, true, false⟩
      ⟨240000, true, none, some 1, true, true, 200, emptyBody⟩).1.lastMessageTime = 240000 ∧
    (loopStep ⟨0, 0, 0, true, true, false⟩
      ⟨240000, true, none, some 1, true, true, 200, emptyBody⟩).2.attempts = [] ∧
    (loopStep ⟨0, 0, 0, true, true, false⟩
      ⟨240000, true, none, some 1, true, true, 200, emptyBody⟩).2.posts = [] := by
  decide

/-- C3 (amended): per pass at most one send attempt occurs, with at most
one POST per attempt (no retry); an attempt occurs iff the send tick
fires with valid readings; a dispatched tick stamps `lastMessageTime`
with the pass time, so no backlog of unsent samples accumulates and no
catch-up burst can follow. -/
theorem send_per_tick_at_most_one (s : St) (e : Env) :
    (loopStep s e).2.attempts.length ≤ 1 ∧
    (loopStep s e).2.posts.length ≤ (loopStep s e).2.attempts.length ∧
    ((loopStep s e).2.attempts ≠ [] ↔
       ((loopStep s e).2.sendBranch = true ∧
        (loopStep s e).2.sensorFailed = false)) ∧
    (loopStep s e).1.lastMessageTime =
      (if (loopStep s e).2.sendBranch = true then e.millis % two32
       else s.lastMessageTime) := by
  refine ⟨?_, ?_, ?_, loop_lastMessageTime s e⟩ <;>
    · simp only [loopStep]
      split
      · split
        · rename_i h hh ht
          rw [sendSensorData_snd]
          split_ifs <;> simp_all
        · simp
      · simp


lemma sendBranch_elapsed (s : St) (e : Env)
    (h : (loopStep s e).2.sendBranch = true) :
    messageInterval ≤ usub32 (e.millis % two32) s.lastMessageTime := by
  rw [loop_sendBranch_iff] at h
  rw [(wifiPhase_keeps s e).1] at h
  exact h.2

/-- C4: when the send interval elapses with the link flag up and either
DHT reading is NaN, no payload is built and no network activity occurs
(no fingerprint setup, no connect, no POST), only the failure is logged;
yet `lastMessageTime` is stamped with the pass time, so a later pass can
dispatch a send only after a further full `messageInterval`. -/
theorem nan_read_consumes_tick (s : St) (e : Env)
    (hc : (wifiPhase s e).1.deviceWifiConnected = true)
    (he : messageInterval ≤ usub32 (e.millis % two32) (wifiPhase s e).1.lastMessageTime)
    (hn : e.humidity = none ∨ e.temperature = none) :
    (loopStep s e).2.attempts = [] ∧
    (loopStep s e).2.posts = [] ∧
    (loopStep s e).2.fingerprintSet = false ∧
    (loopStep s e).2.connectTried = false ∧
    (loopStep s e).2.sensorFailed = true ∧
    (loopStep s e).2.log = [LogEvent.sensorReadFailed] ∧
    (loopStep s e).1.lastMessageTime = e.millis % two32 ∧
    (∀ e2 : Env, (loopStep (loopStep s e).1 e2).2.sendBranch = true →
       messageInterval ≤ usub32 (e2.millis % two32) (e.millis % two32)) := by
  have hmain : (loopStep s e).2.attempts = [] ∧
      (loopStep s e).2.posts = [] ∧
      (loopStep s e).2.fingerprintSet = false ∧
      (loopStep s e).2.connectTried = false ∧
      (loopStep s e).2.sensorFailed = true ∧
      (loopStep s e).2.log = [LogEvent.sensorReadFailed] ∧
      (loopStep s e).1.lastMessageTime = e.millis % two32 := by
    simp only [loopStep]
    split
    · split
      · rename_i hv tp hh ht
        rcases hn with hn | hn
        · rw [hn] at hh
          exact Option.noConfusion hh
        · rw [hn] at ht
          exact Option.noConfusion ht
      · simp
    · rename_i hcond
      exact absurd ⟨hc, he⟩ hcond
  refine ⟨hmain.1, hmain.2.1, hmain.2.2.1, hmain.2.2.2.1, hmain.2.2.2.2.1,
    hmain.2.2.2.2.2.1, hmain.2.2.2.2.2.2, ?_⟩
  intro e2 h2
  have h3 := sendBranch_elapsed (loopStep s e).1 e2 h2
  rwa [hmain.2.2.2.2.2.2] at h3

/-- Witness for C4 at a concrete pass with a NaN humidity reading. -/
theorem nan_read_witness :
    (wifiPhase ⟨0, 0, 0, true, true, false⟩
      ⟨240000, true, none, some 21, true, true, 200, emptyBody⟩).1.deviceWifiConnected = true ∧
    messageInterval ≤
      usub32 (240000 % two32)
        (wifiPhase ⟨0, 0, 0, true, true, false⟩
          ⟨240000, true, none, some 21, true, true, 200, emptyBody⟩).1.lastMessageTime ∧
    (loopStep ⟨0, 0, 0, true, true, false⟩
      ⟨240000, true, none, some 21, true, true, 200, emptyBody⟩).2.posts = [] ∧
    (loopStep ⟨0, 0, 0, true, true, false⟩
      ⟨240000, true, none, some 21, true, true, 200, emptyBody⟩).1.lastMessageTime = 240000 % two32 :=
  ⟨by decide, by decide,
   (nan_read_consumes_tick ⟨0, 0, 0, true, true, false⟩
      ⟨240000, true, none, some 21, true, true, 200, emptyBody⟩
      (by decide) (by decide) (Or.inl rfl)).2.1,
   (nan_read_consumes_tick ⟨0, 0, 0, true, true, false⟩
      ⟨240000, true, none, some 21, true, true, 200, emptyBody⟩
      (by decide) (by decide) (Or.inl rfl)).2.2.2.2.2.2.1⟩

/-- C5: if the link flag is down when the send gate is evaluated (i.e.
after this pass's link-check phase), no telemetry send attempt is made
in the pass, regardless of sensor validity. -/
theorem link_down_blocks_send (s : St) (e : Env)
    (h : (wifiPhase s e).1.deviceWifiConnected = false) :
    (loopStep s e).2.sendBranch = false ∧
    (loopStep s e).2.attempts = [] ∧
    (loopStep s e).2.posts = [] ∧
    (loopStep s e).2.fingerprintSet = false ∧
    (loopStep s e).2.connectTried = false := by
  simp only [loopStep]
  split
  · rename_i hcond
    rw [h] at hcond
    simp at hcond
  · simp

/-- Witness for C5 at a concrete pass with the link down and valid
sensor readings. -/
theorem link_down_witness :
    (wifiPhase ⟨0, 0, 0, true, false, false⟩
      ⟨240000, false, some 55, some 21, true, true, 200, emptyBody⟩).1.deviceWifiConnected = false ∧
    (loopStep ⟨0, 0, 0, true, false, false⟩
      ⟨240000, false, some 55, some 21, true, true, 200, emptyBody⟩).2.sendBranch = false ∧
    (loopStep ⟨0, 0, 0, true, false, false⟩
      ⟨240000, false, some 55, some 21, true, true, 200, emptyBody⟩).2.posts = [] :=
  ⟨by decide,
   (link_down_blocks_send ⟨0, 0, 0, true, false, false⟩
      ⟨240000, false, some 55, some 21, true, true, 200, emptyBody⟩ (by decide)).1,
   (link_down_blocks_send ⟨0, 0, 0, true, false, false⟩
      ⟨240000, false, some 55, some 21, true, true, 200, emptyBody⟩ (by decide)).2.2.1⟩


/-- C6: on every link-check poll, "not associated" triggers a
fire-and-forget reassociation attempt (`WiFi.begin`) and clears the
connected flag, leaving the LED pin untouched; "associated" makes no
reassociation attempt, sets the flag, and drives the status LED low. -/
theorem wifi_poll_sets_flag_and_led (s : St) (e : Env) :
    (e.wifiAssociated = false →
       (checkWifiConnection s e).2 = true ∧
       (checkWifiConnection s e).1.deviceWifiConnected = false ∧
       (checkWifiConnection s e).1.ledPin = s.ledPin) ∧
    (e.wifiAssociated = true →
       (checkWifiConnection s e).2 = false ∧
       (checkWifiConnection s e).1.deviceWifiConnected = true ∧
       (checkWifiConnection s e).1.ledPin = false) := by
  unfold checkWifiConnection connectToWifi
  cases h : e.wifiAssociated <;> simp [h]

/-- Witness for C6, covering both poll outcomes. -/
theorem wifi_poll_witness :
    ((⟨0, true, none, none, false, false, 0, emptyBody⟩ : Env).wifiAssociated = true ∧
     (checkWifiConnection ⟨0, 0, 0, true, false, true⟩
       ⟨0, true, none, none, false, false, 0, emptyBody⟩).2 = false ∧
     (checkWifiConnection ⟨0, 0, 0, true, false, true⟩
       ⟨0, true, none, none, false, false, 0, emptyBody⟩).1.deviceWifiConnected = true ∧
     (checkWifiConnection ⟨0, 0, 0, true, false, true⟩
       ⟨0, true, none, none, false, false, 0, emptyBody⟩).1.ledPin = false) ∧
    ((⟨0, false, none, none, false, false, 0, emptyBody⟩ : Env).wifiAssociated = false ∧
     (checkWifiConnection ⟨0, 0, 0, true, true, true⟩
       ⟨0, false, none, none, false, false, 0, emptyBody⟩).2 = true ∧
     (checkWifiConnection ⟨0, 0, 0, true, true, true⟩
       ⟨0, false, none, none, false, false, 0, emptyBody⟩).1.deviceWifiConnected = false) :=
  ⟨⟨rfl, (wifi_poll_sets_flag_and_led ⟨0, 0, 0, true, false, true⟩
      ⟨0, true, none, none, false, false, 0, emptyBody⟩).2 rfl⟩,
   ⟨rfl, ((wifi_poll_sets_flag_and_led ⟨0, 0, 0, true, true, true⟩
      ⟨0, false, none, none, false, false, 0, emptyBody⟩).1 rfl).1,
    ((wifi_poll_sets_flag_and_led ⟨0, 0, 0, true, true, true⟩
      ⟨0, false, none, none, false, false, 0, emptyBody⟩).1 rfl).2.1⟩⟩

/-- C7: for every issued POST whose status is nonzero (the HTTP client
reports an HTTP response status or a negative local error, never 0): a
negative status drives the indicator steady-on, reads no body and logs
the failure; a non-negative status drives it steady-off, reads the
response body, and logs success for a 200–299 status and an HTTP error
for any other — exactly one POST either way, with no retry. -/
theorem post_status_indicator_and_log (s : St) (e : Env) (p : Payload)
    (hc : s.deviceWifiConnected = true)
    (hs : e.clientConnected = true ∨ e.connectOk = true)
    (hz : e.postCode < 0 ∨ 0 < e.postCode) :
    (e.postCode < 0 →
       (sendSensorData s e p).1.ledPin = true ∧
       (sendSensorData s e p).2.posts = [p] ∧
       (sendSensorData s e p).2.bodyRead = false ∧
       (sendSensorData s e p).2.log = [LogEvent.postSendError e.postCode]) ∧
    (0 ≤ e.postCode →
       (sendSensorData s e p).1.ledPin = false ∧
       (sendSensorData s e p).2.posts = [p] ∧
       (sendSensorData s e p).2.bodyRead = true ∧
       (200 ≤ e.postCode ∧ e.postCode < 300 →
          (sendSensorData s e p).2.log =
            [LogEvent.postSuccess e.postCode, LogEvent.responseBody e.respBody]) ∧
       (¬(200 ≤ e.postCode ∧ e.postCode < 300) →
          (sendSensorData s e p).2.log =
            [LogEvent.httpError e.postCode, LogEvent.responseBody e.respBody])) := by
  have hnc : ¬(e.clientConnected = false ∧ e.connectOk = false) := by
    rcases hs with h | h <;> simp [h]
  constructor
  · intro hneg
    have hnp : ¬(0 < e.postCode) := by omega
    simp [sendSensorData_fst, sendSensorData_snd, hc, hnc, hnp]
  · intro hge
    have hpos : 0 < e.postCode := by rcases hz with h | h <;> omega
    simp only [sendSensorData_fst, sendSensorData_snd, hc]
    simp [hnc, hpos]


/-- Witness for C7 at a concrete send with response status 200. -/
theorem post_status_witness :
    ((⟨0, 0, 0, true, true, false⟩ : St).deviceWifiConnected = true ∧
     ((⟨240000, true, some 55, some 21, true, true, 200, okBody⟩ : Env).clientConnected = true ∨
      (⟨240000, true, some 55, some 21, true, true, 200, okBody⟩ : Env).connectOk = true) ∧
     ((⟨240000, true, some 55, some 21, true, true, 200, okBody⟩ : Env).postCode < 0 ∨
      0 < (⟨240000, true, some 55, some 21, true, true, 200, okBody⟩ : Env).postCode)) ∧
    (sendSensorData ⟨0, 0, 0, true, true, false⟩
      ⟨240000, true, some 55, some 21, true, true, 200, okBody⟩ ⟨55, 21⟩).1.ledPin = false ∧
    (sendSensorData ⟨0, 0, 0, true, true, false⟩
      ⟨240000, true, some 55, some 21, true, true, 200, okBody⟩ ⟨55, 21⟩).2.posts = [⟨55, 21⟩] ∧
    (sendSensorData ⟨0, 0, 0, true, true, false⟩
      ⟨240000, true, some 55, some 21, true, true, 200, okBody⟩ ⟨55, 21⟩).2.log =
      [LogEvent.postSuccess 200, LogEvent.responseBody okBody] :=
  ⟨⟨rfl, Or.inl rfl, Or.inr (by decide)⟩,
   ((post_status_indicator_and_log ⟨0, 0, 0, true, true, false⟩
      ⟨240000, true, some 55, some 21, true, true, 200, okBody⟩ ⟨55, 21⟩
      rfl (Or.inl rfl) (Or.inr (by decide))).2 (by decide)).1,
   ((post_status_indicator_and_log ⟨0, 0, 0, true, true, false⟩
      ⟨240000, true, some 55, some 21, true, true, 200, okBody⟩ ⟨55, 21⟩
      rfl (Or.inl rfl) (Or.inr (by decide))).2 (by decide)).2.1,
   ((post_status_indicator_and_log ⟨0, 0, 0, true, true, false⟩
      ⟨240000, true, some 55, some 21, true, true, 200, okBody⟩ ⟨55, 21⟩
      rfl (Or.inl rfl) (Or.inr (by decide))).2 (by decide)).2.2.2.1 (by decide)⟩

/-- C8: on a send with the link flag up, the fingerprint is configured
and a transport-level connect attempted exactly when no open client
session exists; if that connect fails the indicator is driven steady-on
and the send aborts with no HTTP request and no log output. -/
theorem session_reuse_and_connect_abort (s : St) (e : Env) (p : Payload)
    (hc : s.deviceWifiConnected = true) :
    (sendSensorData s e p).2.fingerprintSet = !e.clientConnected ∧
    (sendSensorData s e p).2.connectTried = !e.clientConnected ∧
    (e.clientConnected = false → e.connectOk = false →
       (sendSensorData s e p).1.ledPin = true ∧
       (sendSensorData s e p).2.posts = [] ∧
       (sendSensorData s e p).2.bodyRead = false ∧
       (sendSensorData s e p).2.log = []) := by
  simp only [sendSensorData_fst, sendSensorData_snd, hc]
  refine ⟨?_, ?_, ?_⟩
  · split_ifs with h1 h2 <;> simp_all
  · split_ifs with h1 h2 <;> simp_all
  · intro h1 h2
    simp [h1, h2]

/-- Witness for C8 at a concrete send whose transport connect fails. -/
theorem session_reuse_witness :
    ((⟨0, 0, 0, true, true, false⟩ : St).deviceWifiConnected = true ∧
     (⟨0, true, some 1, some 1, false, false, 200, emptyBody⟩ : Env).clientConnected = false ∧
     (⟨0, true, some 1, some 1, false, false, 200, emptyBody⟩ : Env).connectOk = false) ∧
    (sendSensorData ⟨0, 0, 0, true, true, false⟩
      ⟨0, true, some 1, some 1, false, false, 200, emptyBody⟩ ⟨1, 1⟩).2.fingerprintSet = true ∧
    (sendSensorData ⟨0, 0, 0, true, true, false⟩
      ⟨0, true, some 1, some 1, false, false, 200, emptyBody⟩ ⟨1, 1⟩).2.connectTried = true ∧
    (sendSensorData ⟨0, 0, 0, true, true, false⟩
      ⟨0, true, some 1, some 1, false, false, 200, emptyBody⟩ ⟨1, 1⟩).1.ledPin = true ∧
    (sendSensorData ⟨0, 0, 0, true, true, false⟩
      ⟨0, true, some 1, some 1, false, false, 200, emptyBody⟩ ⟨1, 1⟩).2.posts = [] :=
  ⟨⟨rfl, rfl, rfl⟩,
   (session_reuse_and_connect_abort ⟨0, 0, 0, true, true, false⟩
      ⟨0, true, some 1, some 1, false, false, 200, emptyBody⟩ ⟨1, 1⟩ rfl).1,
   (session_reuse_and_connect_abort ⟨0, 0, 0, true, true, false⟩
      ⟨0, true, some 1, some 1, false, false, 200, emptyBody⟩ ⟨1, 1⟩ rfl).2.1,
   ((session_reuse_and_connect_abort ⟨0, 0, 0, true, true, false⟩
      ⟨0, true, some 1, some 1, false, false, 200, emptyBody⟩ ⟨1, 1⟩ rfl).2.2 rfl rfl).1,
   ((session_reuse_and_connect_abort ⟨0, 0, 0, true, true, false⟩
      ⟨0, true, some 1, some 1, false, false, 200, emptyBody⟩ ⟨1, 1⟩ rfl).2.2 rfl rfl).2.1⟩

/-- C9: the indicator blink toggles in a pass iff the link flag (as
updated by this pass's link check) is down and the blink interval has
elapsed since the last toggle; when it toggles, `ledState` flips and
`lastBlinkTime` is stamped, otherwise both are unchanged — so blinking
halts while connected and resumes only after the link is lost again. -/
theorem blink_only_while_disconnected (s : St) (e : Env) :
    ((loopStep s e).2.blinkToggled = true ↔
       ((wifiPhase s e).1.deviceWifiConnected = false ∧
        blinkInterval ≤ usub32 (e.millis % two32) s.lastBlinkTime)) ∧
    (loopStep s e).1.ledState =
      (if (loopStep s e).2.blinkToggled = true then !s.ledState
       else s.ledState) ∧
    (loopStep s e).1.lastBlinkTime =
      (if (loopStep s e).2.blinkToggled = true then e.millis % two32
       else s.lastBlinkTime) :=
  ⟨loop_blinkToggled_iff s e, loop_ledState s e, loop_lastBlinkTime s e⟩

/-- C10: a send attempt never modifies the link flag, any timer
timestamp, or the blink state: `sendSensorData` leaves every state field
except the LED pin unchanged — in particular a failed send leaves a true
link flag true. -/
theorem send_preserves_control_state (s : St) (e : Env) (p : Payload) :
    (sendSensorData s e p).1.deviceWifiConnected = s.deviceWifiConnected ∧
    (sendSensorData s e p).1.lastWifiCheckTime = s.lastWifiCheckTime ∧
    (sendSensorData s e p).1.lastMessageTime = s.lastMessageTime ∧
    (sendSensorData s e p).1.lastBlinkTime = s.lastBlinkTime ∧
    (sendSensorData s e p).1.ledState = s.ledState := by
  simp [sendSensorData_fst]

end Firmware
